import Mathlib

/-!
Verification of the CSV test-data generator (`go-test-csv-generator`).

The program reads four flags (`-rows`, `-fields`, `-filename`, `-seed`),
validates them, seeds a fake-value provider, and writes a CSV file:
a header row equal to the comma-split field list, followed by `rows`
data rows whose cells come from a per-field generator registry.

The embedding below translates the Go source: `validateFlags`,
`validateSelectedFields`, `generateBaseFields`, the `generators`
registry, `CSVDataGenerator.generateCsvData`, `generate`, and `main`.
File-system and CSV-writer collaborators (`FileHandler`, `FileWriter`)
are modelled as injectable results, mirroring the mocks used by the
repository's own tests.  The external fake-value provider (gofakeit)
is modelled as an explicit deterministic stream.
-/

namespace CsvGen

/-- Modelled from the spec: the external fake-value provider (gofakeit) is an
external collaborator that "supplies atomic random values ... optionally
deterministic given a seed".  We model its process-wide random stream as an
explicit state: a single natural-number cursor. -/
structure FakeState where
  cursor : Nat
  deriving Repr, DecidableEq

/-- Modelled from the spec: one step of the provider's seeded random stream
(a linear congruential generator standing in for gofakeit's PRNG). -/
def fakeStep (s : FakeState) : Nat × FakeState :=
  let n := (s.cursor * 1103515245 + 12345) % 2147483648
  (n, ⟨n⟩)

/-- Modelled from the spec: sample pool of first names for the provider. -/
def firstNamePool : List String := ["Zion", "Randy", "Alice", "Bob", "Carol"]

/-- Modelled from the spec: sample pool of last names for the provider. -/
def lastNamePool : List String := ["Brakus", "Braun", "Smith", "Jones"]

/-- Modelled from the spec: sample pool of domain names for the provider. -/
def domainNamePool : List String := ["productparadigms.biz", "example.com", "mail.net"]

/-- Modelled from the spec: sample pool of middle names for the provider. -/
def middleNamePool : List String := ["Lee", "Ann", "Ray"]

/-- Modelled from the spec: sample pool of cities for the provider. -/
def cityPool : List String := ["Irving", "Paris", "Oslo"]

/-- Modelled from the spec: sample pool of job titles for the provider. -/
def jobTitlePool : List String := ["Engineer", "Designer", "Analyst"]

/-- Modelled from the spec: draw one string from a pool, advancing the
provider's stream. -/
def fakePick (pool : List String) (s : FakeState) : String × FakeState :=
  let (n, s1) := fakeStep s
  (pool.getD (n % pool.length) "", s1)

/-- Modelled from the spec: `gofakeit.FirstName()`. -/
def fakeFirstName (s : FakeState) : String × FakeState := fakePick firstNamePool s

/-- Modelled from the spec: `gofakeit.LastName()`. -/
def fakeLastName (s : FakeState) : String × FakeState := fakePick lastNamePool s

/-- Modelled from the spec: `gofakeit.DomainName()`. -/
def fakeDomainName (s : FakeState) : String × FakeState := fakePick domainNamePool s

/-- Modelled from the spec: `gofakeit.MiddleName()`. -/
def fakeMiddleName (s : FakeState) : String × FakeState := fakePick middleNamePool s

/-- Modelled from the spec: `gofakeit.City()`. -/
def fakeCity (s : FakeState) : String × FakeState := fakePick cityPool s

/-- Modelled from the spec: `gofakeit.JobTitle()`. -/
def fakeJobTitle (s : FakeState) : String × FakeState := fakePick jobTitlePool s

/-- Modelled from the spec: `gofakeit.Number(min, max)` draws an integer in
the inclusive range `[min, max]`, advancing the provider's stream. -/
def fakeNumber (lo hi : Nat) (s : FakeState) : Nat × FakeState :=
  let (n, s1) := fakeStep s
  (lo + n % (hi - lo + 1), s1)

/-- Modelled from the spec: `gofakeit.Seed(seed)` resets the provider's
process-wide random stream from the given seed. -/
def fakeSeed (seed : Nat) : FakeState := ⟨seed⟩

/-- `strings.ToLower` from the Go standard library, as used by `main.go`:
lowercase every character of the string. -/
def stringsToLower (s : String) : String := String.mk (s.data.map Char.toLower)

/-- The `BaseFields` struct of `main.go`: the per-row bundle of mutually
consistent identity values. -/
structure BaseFields where
  Name : String
  FirstName : String
  LastName : String
  Email : String
  deriving Repr, DecidableEq

/-- `validFields` from `main.go`: the fixed vocabulary map; lookup of a
missing key in a Go `map[string]bool` yields `false`. -/
def validFields (field : String) : Bool :=
  field == "name" || field == "age" || field == "email" || field == "firstName" ||
    field == "lastName" || field == "middleName" || field == "city" || field == "jobTitle"

/-- `validateFlags` from `main.go`: returns the first failing sanity check
as an error message, or `none` when the request is sane. -/
def validateFlags (rows : Int) (fields : String) (filename : String) : Option String :=
  if rows ≤ 0 then some ("invalid number of rows: " ++ toString rows)
  else if fields == "" then some "fields cannot be empty"
  else if filename == "" then some "filename cannot be empty"
  else none

/-- Helper for `stringsSplitComma`: split a character list at each comma,
keeping empty segments (the segments are accumulated right-to-left). -/
def splitCommaAux : List Char → List (List Char)
  | [] => [[]]
  | c :: rest =>
    let r := splitCommaAux rest
    if c = ',' then [] :: r
    else
      match r with
      | [] => [[c]]
      | h :: t => (c :: h) :: t

/-- `strings.Split(s, ",")` from the Go standard library, as used by
`main.go`: split on every comma without trimming; the empty string splits
into one empty token, and adjacent commas produce empty tokens. -/
def stringsSplitComma (s : String) : List String :=
  (splitCommaAux s.data).map String.mk

/-- The loop body of `validateSelectedFields`: walk the split tokens in
order, appending each token whose `validFields` lookup is `false`. -/
def collectInvalid : List String → List String
  | [] => []
  | f :: rest => if !validFields f then f :: collectInvalid rest else collectInvalid rest

/-- `validateSelectedFields` from `main.go`: split the raw field string on
commas and return the tokens not in the vocabulary, in input order. -/
def validateSelectedFields (fields : String) : List String :=
  collectInvalid (stringsSplitComma fields)

/-- `generateBaseFields` from `main.go`: draw a first name, a last name and
a domain name, then derive the full name and the email. -/
def generateBaseFields (s : FakeState) : BaseFields × FakeState :=
  let (firstName, s1) := fakeFirstName s
  let (lastName, s2) := fakeLastName s1
  let (emailDomain, s3) := fakeDomainName s2
  let name := firstName ++ " " ++ lastName
  let email := stringsToLower firstName ++ "." ++ stringsToLower lastName ++ "@" ++ emailDomain
  (⟨name, firstName, lastName, email⟩, s3)

/-- The `generators` registry from `main.go`: a map from field name to a
cell-producing function.  A missing key yields `none` (in Go, a `nil`
function whose invocation panics).  Generators that consume provider
randomness thread the provider state. -/
def generators : String → Option (BaseFields → FakeState → String × FakeState)
  | "name" => some fun fields s => (fields.Name, s)
  | "age" => some fun _ s =>
      let (n, s1) := fakeNumber 18 99 s
      (toString n, s1)
  | "email" => some fun fields s => (fields.Email, s)
  | "firstName" => some fun fields s => (fields.FirstName, s)
  | "lastName" => some fun fields s => (fields.LastName, s)
  | "middleName" => some fun _ s => fakeMiddleName s
  | "city" => some fun _ s => fakeCity s
  | "jobTitle" => some fun _ s => fakeJobTitle s
  | _ => none

/-- The inner loop of `generateCsvData`: evaluate the registry function of
each field name in field-list order against one base-field bundle,
collecting the cells in the same order.  `none` models the Go panic from
invoking the `nil` function returned by a missing map entry. -/
def buildRow : List String → BaseFields → FakeState → Option (List String × FakeState)
  | [], _, s => some ([], s)
  | f :: rest, bf, s =>
    match generators f with
    | none => none
    | some g =>
      let (cell, s1) := g bf s
      match buildRow rest bf s1 with
      | none => none
      | some (cells, s2) => some (cell :: cells, s2)

/-- The `FileHandler` collaborator of `main.go`, modelled by its injectable
results as in the repository's `MockFileHandler`: `none` means the call
succeeds, `some e` means it fails with error text `e`. -/
structure FileHandler where
  mkDirAllResult : Option String
  createResult : Option String

/-- The `FileWriter` collaborator of `main.go`, modelled as in the
repository's `MockFileWriter` but allowing each successive `Write` call
(indexed from 0) to fail independently: `fw n = some e` means the n-th
write returns error `e`. -/
def FileWriter : Type := Nat → Option String

/-- Outcome of one `generateCsvData` run: the records written (header
first) with the final provider state, a returned error, or a runtime
panic (the `nil`-generator call). -/
inductive RunResult where
  | ok (records : List (List String)) (s : FakeState)
  | err (msg : String)
  | panicked
  deriving Repr, DecidableEq

/-- The row loop of `generateCsvData`: for each remaining row, derive one
fresh base-field bundle, assemble the row, and write it (write calls are
numbered by `wIdx`); accumulated records are kept in reverse. -/
def writeRows (fieldSlice : List String) (fw : FileWriter) :
    Nat → Nat → FakeState → List (List String) → RunResult
  | 0, _, s, acc => .ok acc.reverse s
  | n + 1, wIdx, s, acc =>
    let (baseFields, s1) := generateBaseFields s
    match buildRow fieldSlice baseFields s1 with
    | none => .panicked
    | some (row, s2) =>
      match fw wIdx with
      | some e => .err ("failed to write row: " ++ e)
      | none => writeRows fieldSlice fw n (wIdx + 1) s2 (row :: acc)

/-- `CSVDataGenerator.generateCsvData` from `main.go`: create the output
directory and file, split the field string, write the header, then write
`rows` data rows.  `rows.toNat` reflects the Go loop
`for i := 0; i < rows; i++`, which performs no iterations when
`rows <= 0`. -/
def generateCsvData (rows : Int) (fields : String) (_outputDir : String)
    (_filename : String) (fh : FileHandler) (fw : FileWriter) (s : FakeState) : RunResult :=
  match fh.mkDirAllResult with
  | some e => .err ("failed to create directory: " ++ e)
  | none =>
    match fh.createResult with
    | some e => .err e
    | none =>
      let fieldSlice := stringsSplitComma fields
      match fw 0 with
      | some e => .err ("failed to write header row: " ++ e)
      | none => writeRows fieldSlice fw rows.toNat 1 s [fieldSlice]

/-- Outcome of `generate` / `main`: a successful run carries the console
lines printed (in order) and the records written to the file; a fatal run
carries the panic message (the Go `panic` gives a non-zero exit); `panicked`
is the runtime panic from a `nil`-generator call. -/
inductive ProcResult where
  | success (consoleLines : List String) (records : List (List String))
  | fatal (msg : String)
  | panicked
  deriving Repr, DecidableEq

/-- `generate` from `main.go`: print the four banner lines, seed the
provider, run `generateCsvData`, panic on its error, and otherwise print
the success line and the elapsed-time line.  `elapsed` abstracts the
wall-clock seconds string formatted by `%f`. -/
def generate (rows : Int) (fields : String) (filename : String) (seed : Nat)
    (fh : FileHandler) (fw : FileWriter) (elapsed : String) : ProcResult :=
  let banner := ["Rows: " ++ toString rows, "Fields: " ++ fields,
                 "Filename: " ++ filename, "Generating CSV file..."]
  match generateCsvData rows fields "output" filename fh fw (fakeSeed seed) with
  | .err e => .fatal ("Failed to generate CSV data: " ++ e)
  | .panicked => .panicked
  | .ok records _ =>
    .success
      (banner ++ ["CSV file successfully generated at output/" ++ filename ++ ".",
                  "(Elapsed time: " ++ elapsed ++ " seconds)"])
      records

/-- `main` from `main.go`: validate the flags (panicking with a prefixed
message on failure), validate the selected fields (panicking with the list
of invalid tokens on failure), then run `generate`. -/
def mainRun (rows : Int) (fields : String) (filename : String) (seed : Nat)
    (fh : FileHandler) (fw : FileWriter) (elapsed : String) : ProcResult :=
  match validateFlags rows fields filename with
  | some e => .fatal ("Invalid flags: " ++ e)
  | none =>
    let invalidFields := validateSelectedFields fields
    if invalidFields.length > 0 then
      .fatal ("Unable to generate CSV data. Invalid fields selected: " ++
        String.intercalate ", " invalidFields)
    else
      generate rows fields filename seed fh fw elapsed

/-- Vocabulary as the spec words it: the fixed closed set
`name, age, email, firstName, lastName, middleName, city, jobTitle`
(spec-side reference definition, to be compared with `validFields`). -/
def specVocabulary : List String :=
  ["name", "age", "email", "firstName", "lastName", "middleName", "city", "jobTitle"]

/-! ### Helper lemmas -/

lemma validFields_eq_contains (t : String) : validFields t = specVocabulary.contains t := by
  rw [Bool.eq_iff_iff]
  simp [validFields, specVocabulary, or_assoc]

lemma collectInvalid_eq_filter (l : List String) :
    collectInvalid l = l.filter fun t => !(specVocabulary.contains t) := by
  induction l with
  | nil => rfl
  | cons f rest ih =>
    simp only [collectInvalid, validFields_eq_contains, List.filter_cons]
    cases h : specVocabulary.contains f <;> simp [ih, h]

lemma writeRows_ok_shape (fieldSlice : List String) (fw : FileWriter) :
    ∀ (n wIdx : Nat) (s : FakeState) (acc records : List (List String)) (s' : FakeState),
      writeRows fieldSlice fw n wIdx s acc = .ok records s' →
      ∃ rs, records = acc.reverse ++ rs ∧ rs.length = n ∧
        ∀ r ∈ rs, ∃ s0 bf s1 s2, generateBaseFields s0 = (bf, s1) ∧
          buildRow fieldSlice bf s1 = some (r, s2) := by
  intro n
  induction n with
  | zero =>
    intro wIdx s acc records s' h
    simp only [writeRows, RunResult.ok.injEq] at h
    exact ⟨[], by simp [h.1.symm], rfl, by simp⟩
  | succ n ih =>
    intro wIdx s acc records s' h
    rw [writeRows] at h
    rcases hgb : generateBaseFields s with ⟨bf, s1⟩
    rw [hgb] at h
    dsimp only at h
    cases hbr : buildRow fieldSlice bf s1 with
    | none => rw [hbr] at h; simp at h
    | some p =>
      rcases p with ⟨row, s2⟩
      rw [hbr] at h
      cases hfw : fw wIdx with
      | some e => rw [hfw] at h; simp at h
      | none =>
        rw [hfw] at h
        obtain ⟨rs, hrec, hlen, hmem⟩ := ih (wIdx + 1) s2 (row :: acc) records s' h
        refine ⟨row :: rs, ?_, by simp [hlen], ?_⟩
        · simpa using hrec
        · intro r hr
          rcases List.mem_cons.mp hr with hr | hr
          · exact ⟨s, bf, s1, s2, hgb, hr ▸ hbr⟩
          · exact hmem r hr

lemma generateCsvData_ok_writeRows {rows : Int} {fields od fn : String} {fh : FileHandler}
    {fw : FileWriter} {s : FakeState} {records : List (List String)} {s' : FakeState}
    (h : generateCsvData rows fields od fn fh fw s = .ok records s') :
    writeRows (stringsSplitComma fields) fw rows.toNat 1 s [stringsSplitComma fields] =
      .ok records s' := by
  unfold generateCsvData at h
  cases h1 : fh.mkDirAllResult with
  | some e => rw [h1] at h; simp at h
  | none =>
    rw [h1] at h
    cases h2 : fh.createResult with
    | some e => rw [h2] at h; simp at h
    | none =>
      rw [h2] at h
      cases h3 : fw 0 with
      | some e => rw [h3] at h; simp at h
      | none => rw [h3] at h; exact h

lemma generateCsvData_ok_structure {rows : Int} {fields od fn : String} {fh : FileHandler}
    {fw : FileWriter} {s : FakeState} {records : List (List String)} {s' : FakeState}
    (h : generateCsvData rows fields od fn fh fw s = .ok records s') :
    ∃ rs, records = stringsSplitComma fields :: rs ∧ rs.length = rows.toNat ∧
      ∀ r ∈ rs, ∃ s0 bf s1 s2, generateBaseFields s0 = (bf, s1) ∧
        buildRow (stringsSplitComma fields) bf s1 = some (r, s2) := by
  obtain ⟨rs, hrec, hlen, hmem⟩ :=
    writeRows_ok_shape _ fw rows.toNat 1 s [stringsSplitComma fields] records s'
      (generateCsvData_ok_writeRows h)
  exact ⟨rs, by simpa using hrec, hlen, hmem⟩

lemma writeRows_ok_deterministic (fieldSlice : List String) :
    ∀ (n : Nat) (w1 w2 : Nat) (s : FakeState) (acc : List (List String)) (fw1 fw2 : FileWriter)
      (r1 r2 : List (List String)) (t1 t2 : FakeState),
      writeRows fieldSlice fw1 n w1 s acc = .ok r1 t1 →
      writeRows fieldSlice fw2 n w2 s acc = .ok r2 t2 →
      r1 = r2 ∧ t1 = t2 := by
  intro n
  induction n with
  | zero =>
    intro w1 w2 s acc fw1 fw2 r1 r2 t1 t2 h1 h2
    simp only [writeRows, RunResult.ok.injEq] at h1 h2
    exact ⟨h1.1.symm.trans h2.1, h1.2.symm.trans h2.2⟩
  | succ n ih =>
    intro w1 w2 s acc fw1 fw2 r1 r2 t1 t2 h1 h2
    rw [writeRows] at h1 h2
    rcases hgb : generateBaseFields s with ⟨bf, s1⟩
    rw [hgb] at h1 h2
    dsimp only at h1 h2
    cases hbr : buildRow fieldSlice bf s1 with
    | none => rw [hbr] at h1; simp at h1
    | some p =>
      rcases p with ⟨row, s2⟩
      rw [hbr] at h1 h2
      cases hf1 : fw1 w1 with
      | some e => rw [hf1] at h1; simp at h1
      | none =>
        rw [hf1] at h1
        cases hf2 : fw2 w2 with
        | some e => rw [hf2] at h2; simp at h2
        | none =>
          rw [hf2] at h2
          exact ih (w1 + 1) (w2 + 1) s2 (row :: acc) fw1 fw2 r1 r2 t1 t2 h1 h2

lemma generateBaseFields_spec {s : FakeState} {bf : BaseFields} {s1 : FakeState}
    (h : generateBaseFields s = (bf, s1)) :
    bf.Name = bf.FirstName ++ " " ++ bf.LastName ∧
    ∃ d, bf.Email = stringsToLower bf.FirstName ++ "." ++ stringsToLower bf.LastName ++ "@" ++ d := by
  unfold generateBaseFields at h
  rcases hf : fakeFirstName s with ⟨fn, sa⟩
  rw [hf] at h
  dsimp only at h
  rcases hl : fakeLastName sa with ⟨ln, sb⟩
  rw [hl] at h
  dsimp only at h
  rcases hd : fakeDomainName sb with ⟨dn, sc⟩
  rw [hd] at h
  dsimp only at h
  simp only [Prod.mk.injEq] at h
  rw [← h.1]
  exact ⟨rfl, ⟨dn, rfl⟩⟩

lemma buildRow_step {f : String} {rest : List String} {bf : BaseFields} {s : FakeState}
    {row : List String} {s' : FakeState}
    (h : buildRow (f :: rest) bf s = some (row, s')) :
    ∃ g cells s2, generators f = some g ∧ buildRow rest bf (g bf s).2 = some (cells, s2) ∧
      row = (g bf s).1 :: cells := by
  rw [buildRow] at h
  cases hg : generators f with
  | none => rw [hg] at h; simp at h
  | some g =>
    rw [hg] at h
    dsimp only at h
    rcases hgc : g bf s with ⟨cell, s1⟩
    rw [hgc] at h
    dsimp only at h
    cases hbr : buildRow rest bf s1 with
    | none => rw [hbr] at h; simp at h
    | some p =>
      rcases p with ⟨cells, s2⟩
      rw [hbr] at h
      simp only [Option.some.injEq, Prod.mk.injEq] at h
      refine ⟨g, cells, s2, rfl, ?_, ?_⟩
      · rw [hgc]; exact hbr
      · rw [hgc]; exact h.1.symm

lemma buildRow_ok_length (fieldSlice : List String) :
    ∀ (bf : BaseFields) (s : FakeState) (row : List String) (s' : FakeState),
      buildRow fieldSlice bf s = some (row, s') → row.length = fieldSlice.length := by
  induction fieldSlice with
  | nil =>
    intro bf s row s' h
    simp only [buildRow, Option.some.injEq, Prod.mk.injEq] at h
    rw [← h.1]
  | cons f rest ih =>
    intro bf s row s' h
    obtain ⟨g, cells, s2, hg, hbr, hrow⟩ := buildRow_step h
    subst hrow
    simp [ih bf (g bf s).2 cells s2 hbr]

lemma buildRow_bundle_cells (fieldSlice : List String) :
    ∀ (bf : BaseFields) (s : FakeState) (row : List String) (s' : FakeState),
      buildRow fieldSlice bf s = some (row, s') → ∀ i : Nat,
      (fieldSlice.getD i "" = "name" → row.getD i "" = bf.Name) ∧
      (fieldSlice.getD i "" = "firstName" → row.getD i "" = bf.FirstName) ∧
      (fieldSlice.getD i "" = "lastName" → row.getD i "" = bf.LastName) ∧
      (fieldSlice.getD i "" = "email" → row.getD i "" = bf.Email) := by
  induction fieldSlice with
  | nil =>
    intro bf s row s' h i
    simp only [buildRow, Option.some.injEq, Prod.mk.injEq] at h
    rw [← h.1]
    refine ⟨?_, ?_, ?_, ?_⟩ <;> intro hf <;> rw [List.getD_nil] at hf <;>
      exact absurd hf (by decide)
  | cons f rest ih =>
    intro bf s row s' h i
    obtain ⟨g, cells, s2, hg, hbr, hrow⟩ := buildRow_step h
    subst hrow
    cases i with
    | zero =>
      refine ⟨?_, ?_, ?_, ?_⟩ <;> intro hf <;>
        simp only [List.getD_cons_zero] at hf ⊢ <;> subst hf
      · have he : generators "name" =
            some fun (fields : BaseFields) (st : FakeState) => (fields.Name, st) := rfl
        rw [he] at hg
        cases hg
        rfl
      · have he : generators "firstName" =
            some fun (fields : BaseFields) (st : FakeState) => (fields.FirstName, st) := rfl
        rw [he] at hg
        cases hg
        rfl
      · have he : generators "lastName" =
            some fun (fields : BaseFields) (st : FakeState) => (fields.LastName, st) := rfl
        rw [he] at hg
        cases hg
        rfl
      · have he : generators "email" =
            some fun (fields : BaseFields) (st : FakeState) => (fields.Email, st) := rfl
        rw [he] at hg
        cases hg
        rfl
    | succ i =>
      simp only [List.getD_cons_succ]
      exact ih bf (g bf s).2 cells s2 hbr i

lemma fakeNumber_range (lo hi : Nat) (s : FakeState) :
    lo ≤ (fakeNumber lo hi s).1 ∧ (fakeNumber lo hi s).1 ≤ lo + (hi - lo) := by
  unfold fakeNumber
  rcases hs : fakeStep s with ⟨n, s1⟩
  dsimp only
  constructor
  · exact Nat.le_add_right lo _
  · have hm : n % (hi - lo + 1) < hi - lo + 1 := Nat.mod_lt _ (Nat.succ_pos _)
    omega

lemma buildRow_age_cells (fieldSlice : List String) :
    ∀ (bf : BaseFields) (s : FakeState) (row : List String) (s' : FakeState),
      buildRow fieldSlice bf s = some (row, s') → ∀ i : Nat,
      fieldSlice.getD i "" = "age" →
      ∃ n : Nat, 18 ≤ n ∧ n ≤ 99 ∧ row.getD i "" = toString n := by
  induction fieldSlice with
  | nil =>
    intro bf s row s' h i hf
    rw [List.getD_nil] at hf
    exact absurd hf (by decide)
  | cons f rest ih =>
    intro bf s row s' h i
    obtain ⟨g, cells, s2, hg, hbr, hrow⟩ := buildRow_step h
    subst hrow
    cases i with
    | zero =>
      intro hf
      simp only [List.getD_cons_zero] at hf
      subst hf
      have he : generators "age" =
          some fun (_ : BaseFields) (st : FakeState) =>
            ((fun p : Nat × FakeState => (toString p.1, p.2)) (fakeNumber 18 99 st)) := rfl
      rw [he] at hg
      cases hg
      refine ⟨(fakeNumber 18 99 s).1, (fakeNumber_range 18 99 s).1, ?_, rfl⟩
      have := (fakeNumber_range 18 99 s).2
      omega
    | succ i =>
      simp only [List.getD_cons_succ]
      exact ih bf (g bf s).2 cells s2 hbr i

lemma validFields_generators_isSome {f : String} (h : validFields f = true) :
    (generators f).isSome := by
  simp only [validFields, Bool.or_eq_true, beq_iff_eq] at h
  rcases h with (((((((h | h) | h) | h) | h) | h) | h) | h) <;> subst h <;> rfl

lemma collectInvalid_nil_valid :
    ∀ l : List String, collectInvalid l = [] → ∀ f ∈ l, validFields f = true := by
  intro l
  induction l with
  | nil => simp
  | cons f rest ih =>
    intro h g hg
    simp only [collectInvalid] at h
    by_cases hf : validFields f
    · rw [if_neg (by simp [hf])] at h
      rcases List.mem_cons.mp hg with hg | hg
      · exact hg ▸ hf
      · exact ih h g hg
    · rw [if_pos (by simp [hf])] at h
      exact absurd h (by simp)

lemma buildRow_isSome (fieldSlice : List String)
    (hall : ∀ f ∈ fieldSlice, (generators f).isSome) :
    ∀ bf s, (buildRow fieldSlice bf s).isSome := by
  induction fieldSlice with
  | nil => intro bf s; simp [buildRow]
  | cons f rest ih =>
    intro bf s
    have hf := hall f (by simp)
    cases hg : generators f with
    | none => rw [hg] at hf; simp at hf
    | some g =>
      have hr := ih (fun x hx => hall x (by simp [hx])) bf (g bf s).2
      rw [buildRow, hg]
      dsimp only
      rcases hgc : g bf s with ⟨cell, s1⟩
      dsimp only
      rw [hgc] at hr
      cases hbr : buildRow rest bf s1 with
      | none => rw [hbr] at hr; simp at hr
      | some p =>
        rcases p with ⟨cells, s2⟩
        rfl

lemma writeRows_ne_panicked (fieldSlice : List String) (fw : FileWriter)
    (hall : ∀ bf s, (buildRow fieldSlice bf s).isSome) :
    ∀ (n wIdx : Nat) (s : FakeState) (acc : List (List String)),
      writeRows fieldSlice fw n wIdx s acc ≠ .panicked := by
  intro n
  induction n with
  | zero => intro wIdx s acc h; simp [writeRows] at h
  | succ n ih =>
    intro wIdx s acc h
    rw [writeRows] at h
    rcases hgb : generateBaseFields s with ⟨bf, s1⟩
    rw [hgb] at h
    dsimp only at h
    cases hbr : buildRow fieldSlice bf s1 with
    | none =>
      have := hall bf s1
      rw [hbr] at this
      simp at this
    | some p =>
      rcases p with ⟨row, s2⟩
      rw [hbr] at h
      cases hfw : fw wIdx with
      | some e => rw [hfw] at h; simp at h
      | none => rw [hfw] at h; exact ih _ _ _ h

/-! ### Theorems for the claims -/

/-- Claim C4: the field-list validator splits the input string on commas
without trimming, compares each token verbatim against the fixed
vocabulary, and returns exactly the tokens outside the vocabulary in input
order; `validate("invalid")` returns `["invalid"]` and `validate("name,age")`
returns an empty result. -/
theorem C4_validator_returns_invalid_tokens :
    (∀ s : String, validateSelectedFields s =
        (stringsSplitComma s).filter fun t => !(specVocabulary.contains t)) ∧
    validateSelectedFields "invalid" = ["invalid"] ∧
    validateSelectedFields "name,age" = [] :=
  ⟨fun _ => collectInvalid_eq_filter _, by decide, by decide⟩

/-- Claim C9: the request-level sanity check fails exactly when the row
count is ≤ 0, the raw field-list string is empty, or the filename is
empty; each condition is reported by a distinct message identifying the
failed check, and when it fails `main` terminates fatally for every file
handler and writer — so no I/O or generation is performed first. -/
theorem C9_request_sanity_check (rows : Int) (fields filename : String) :
    ((validateFlags rows fields filename).isSome ↔
      rows ≤ 0 ∨ fields = "" ∨ filename = "") ∧
    (rows ≤ 0 →
      validateFlags rows fields filename = some ("invalid number of rows: " ++ toString rows)) ∧
    (0 < rows → fields = "" →
      validateFlags rows fields filename = some "fields cannot be empty") ∧
    (0 < rows → fields ≠ "" → filename = "" →
      validateFlags rows fields filename = some "filename cannot be empty") ∧
    (∀ e seed fh fw elapsed, validateFlags rows fields filename = some e →
      mainRun rows fields filename seed fh fw elapsed = .fatal ("Invalid flags: " ++ e)) := by
  refine ⟨?_, ?_, ?_, ?_, ?_⟩
  · unfold validateFlags
    split_ifs with h1 h2 h3 <;> simp_all
  · intro h1
    simp [validateFlags, h1]
  · intro h1 h2
    simp [validateFlags, h1, h2, not_le.mpr h1]
  · intro h1 h2 h3
    simp [validateFlags, h1, h2, h3, not_le.mpr h1]
  · intro e seed fh fw elapsed h
    simp [mainRun, h]

/-- Closed witness for C9 at row count 0. -/
theorem C9_request_sanity_check_witness :
    validateFlags 0 "name" "out.csv" = some ("invalid number of rows: " ++ toString (0 : Int)) ∧
    mainRun 0 "name" "out.csv" 1 ⟨none, none⟩ (fun _ => none) "0.1" =
      .fatal ("Invalid flags: " ++ ("invalid number of rows: " ++ toString (0 : Int))) := by
  refine ⟨(C9_request_sanity_check 0 "name" "out.csv").2.1 (by decide), ?_⟩
  exact (C9_request_sanity_check 0 "name" "out.csv").2.2.2.2 _ 1 ⟨none, none⟩ (fun _ => none)
    "0.1" ((C9_request_sanity_check 0 "name" "out.csv").2.1 (by decide))

/-- Claim C1: whenever the generation step returns an error (directory
creation, file creation, header write, or a data-row write), `generate`
terminates fatally (a Go `panic`, hence a non-zero exit) with a single
descriptive message, and never reports success — no generation error is
silently swallowed. -/
theorem C1_generation_failure_fatal (rows : Int) (fields filename : String) (seed : Nat)
    (fh : FileHandler) (fw : FileWriter) (elapsed e : String)
    (h : generateCsvData rows fields "output" filename fh fw (fakeSeed seed) = .err e) :
    generate rows fields filename seed fh fw elapsed =
      .fatal ("Failed to generate CSV data: " ++ e) ∧
    ∀ lines records, generate rows fields filename seed fh fw elapsed ≠
      .success lines records := by
  constructor
  · simp [generate, h]
  · intro lines records
    simp [generate, h]

/-- Closed witness for C1: a run whose directory creation fails. -/
theorem C1_generation_failure_fatal_witness :
    generate 1 "name,age" "output.csv" 1 ⟨some "MkDirAll failed", none⟩ (fun _ => none) "0.5" =
      .fatal ("Failed to generate CSV data: " ++ "failed to create directory: MkDirAll failed") ∧
    ∀ lines records,
      generate 1 "name,age" "output.csv" 1 ⟨some "MkDirAll failed", none⟩ (fun _ => none) "0.5" ≠
        .success lines records :=
  C1_generation_failure_fatal 1 "name,age" "output.csv" 1 ⟨some "MkDirAll failed", none⟩
    (fun _ => none) "0.5" "failed to create directory: MkDirAll failed" (by decide)

/-- Claim C5: for every run of the generation step that succeeds, the
first record written (the header row) equals the comma-split field list
verbatim, in input order, duplicates included. -/
theorem C5_header_verbatim (rows : Int) (fields filename : String) (fh : FileHandler)
    (fw : FileWriter) (s : FakeState) (records : List (List String)) (s' : FakeState)
    (h : generateCsvData rows fields "output" filename fh fw s = .ok records s') :
    records.head? = some (stringsSplitComma fields) := by
  obtain ⟨rs, hrec, -, -⟩ := generateCsvData_ok_structure h
  simp [hrec]

/-- Closed witness for C5 at the duplicated field list `name,name`. -/
theorem C5_header_verbatim_witness :
    ([["name", "name"], ["Zion Jones", "Zion Jones"]] : List (List String)).head? =
      some (stringsSplitComma "name,name") :=
  C5_header_verbatim 1 "name,name" "o.csv" ⟨none, none⟩ (fun _ => none) (fakeSeed 1)
    [["name", "name"], ["Zion Jones", "Zion Jones"]] ⟨662824084⟩ (by decide)

/-- Claim C8: every successful run's console output ends with two
separate, order-significant lines: the success line naming
`output/<filename>` and then the elapsed-time line. -/
theorem C8_success_console_tail (rows : Int) (fields filename : String) (seed : Nat)
    (fh : FileHandler) (fw : FileWriter) (elapsed : String) (lines : List String)
    (records : List (List String))
    (h : generate rows fields filename seed fh fw elapsed = .success lines records) :
    ∃ pre, lines = pre ++
      ["CSV file successfully generated at output/" ++ filename ++ ".",
       "(Elapsed time: " ++ elapsed ++ " seconds)"] := by
  cases hg : generateCsvData rows fields "output" filename fh fw (fakeSeed seed) with
  | ok recs t =>
    simp only [generate, hg, ProcResult.success.injEq] at h
    exact ⟨_, h.1.symm⟩
  | err e => simp [generate, hg] at h
  | panicked => simp [generate, hg] at h

/-- Closed witness for C8 on a concrete successful run. -/
theorem C8_success_console_tail_witness :
    ∃ pre, ["Rows: 1", "Fields: name,age", "Filename: output.csv", "Generating CSV file...",
        "CSV file successfully generated at output/output.csv.",
        "(Elapsed time: 0.001 seconds)"] = pre ++
      ["CSV file successfully generated at output/" ++ "output.csv" ++ ".",
       "(Elapsed time: " ++ "0.001" ++ " seconds)"] :=
  C8_success_console_tail 1 "name,age" "output.csv" 1 ⟨none, none⟩ (fun _ => none) "0.001"
    ["Rows: 1", "Fields: name,age", "Filename: output.csv", "Generating CSV file...",
     "CSV file successfully generated at output/output.csv.",
     "(Elapsed time: 0.001 seconds)"]
    [["name", "age"], ["Zion Jones", "51"]] (by decide)

/-- Claim C3: two successful runs with the same row count, the same seed
and the same field list produce identical record sequences (header plus
all data rows), whatever the file collaborators do — the output is a
deterministic function of the seeded provider stream and the request. -/
theorem C3_seed_determinism (rows : Int) (fields fn1 fn2 : String) (seed : Nat)
    (fh1 fh2 : FileHandler) (fw1 fw2 : FileWriter) (r1 r2 : List (List String))
    (t1 t2 : FakeState)
    (h1 : generateCsvData rows fields "output" fn1 fh1 fw1 (fakeSeed seed) = .ok r1 t1)
    (h2 : generateCsvData rows fields "output" fn2 fh2 fw2 (fakeSeed seed) = .ok r2 t2) :
    r1 = r2 :=
  (writeRows_ok_deterministic (stringsSplitComma fields) rows.toNat 1 1 (fakeSeed seed)
    [stringsSplitComma fields] fw1 fw2 r1 r2 t1 t2
    (generateCsvData_ok_writeRows h1) (generateCsvData_ok_writeRows h2)).1

/-- Closed witness for C3: two seed-1 runs with different file names and
different (but non-failing) writers produce the same records. -/
theorem C3_seed_determinism_witness :
    ([["name", "age"], ["Zion Jones", "51"]] : List (List String)) =
      [["name", "age"], ["Zion Jones", "51"]] :=
  C3_seed_determinism 1 "name,age" "output.csv" "other.csv" 1 ⟨none, none⟩ ⟨none, none⟩
    (fun _ => none) (fun n => if n < 2 then none else some "late failure")
    [["name", "age"], ["Zion Jones", "51"]] [["name", "age"], ["Zion Jones", "51"]]
    ⟨1147902781⟩ ⟨1147902781⟩ (by decide) (by decide)

/-- Claim C6: a valid request (row count ≥ 1) that completes without a
write error writes exactly `rows` data rows after the header, and every
data row is built by evaluating the field list in order against one fresh
bundle, giving one cell per field-list entry; the record list preserves
generation order, so rows appear in index order 1..rows. -/
theorem C6_row_count_and_shape (rows : Int) (fields filename : String) (fh : FileHandler)
    (fw : FileWriter) (s : FakeState) (records : List (List String)) (s' : FakeState)
    (hrows : 0 < rows)
    (h : generateCsvData rows fields "output" filename fh fw s = .ok records s') :
    (records.tail.length : Int) = rows ∧
    records.length = rows.toNat + 1 ∧
    (∀ r ∈ records.tail, r.length = (stringsSplitComma fields).length) ∧
    (∀ r ∈ records.tail, ∃ s0 bf s1 s2, generateBaseFields s0 = (bf, s1) ∧
      buildRow (stringsSplitComma fields) bf s1 = some (r, s2)) := by
  obtain ⟨rs, hrec, hlen, hmem⟩ := generateCsvData_ok_structure h
  subst hrec
  refine ⟨?_, ?_, ?_, ?_⟩
  · simp only [List.tail_cons, hlen]
    omega
  · simp [hlen]
  · intro r hr
    obtain ⟨s0, bf, s1, s2, hgb, hbr⟩ := hmem r (by simpa using hr)
    exact buildRow_ok_length _ bf s1 r s2 hbr
  · intro r hr
    exact hmem r (by simpa using hr)

/-- Closed witness for C6: a two-row run writes exactly two data rows of
two cells each. -/
theorem C6_row_count_and_shape_witness :
    (([["name", "age"], ["Randy Braun", "49"], ["Zion Braun", "75"]] :
        List (List String)).tail.length : Int) = 2 :=
  (C6_row_count_and_shape 2 "name,age" "o.csv" ⟨none, none⟩ (fun _ => none) (fakeSeed 7)
    [["name", "age"], ["Randy Braun", "49"], ["Zion Braun", "75"]] ⟨2083449087⟩
    (by decide) (by decide)).1

/-- Claim C2: in every generated data row, whenever `name`, `firstName`
and `lastName` are selected, the `name` cell is the `firstName` cell and
the `lastName` cell joined by one space, and whenever `email` is also
selected, its local part is `lowercase(firstName) + "." +
lowercase(lastName)` for the same row — all four cells read the one
base-field bundle derived fresh for that row. -/
theorem C2_identity_cells_consistent (rows : Int) (fields filename : String)
    (fh : FileHandler) (fw : FileWriter) (s : FakeState)
    (records : List (List String)) (s' : FakeState) (row : List String)
    (h : generateCsvData rows fields "output" filename fh fw s = .ok records s')
    (hrow : row ∈ records.tail) (i j k e : Nat)
    (hi : (stringsSplitComma fields).getD i "" = "name")
    (hj : (stringsSplitComma fields).getD j "" = "firstName")
    (hk : (stringsSplitComma fields).getD k "" = "lastName") :
    row.getD i "" = row.getD j "" ++ " " ++ row.getD k "" ∧
    ((stringsSplitComma fields).getD e "" = "email" →
      ∃ d, row.getD e "" =
        stringsToLower (row.getD j "") ++ "." ++ stringsToLower (row.getD k "") ++ "@" ++ d) := by
  obtain ⟨rs, hrec, hlen, hmem⟩ := generateCsvData_ok_structure h
  subst hrec
  obtain ⟨s0, bf, s1, s2, hgb, hbr⟩ := hmem row (by simpa using hrow)
  have hc := buildRow_bundle_cells _ bf s1 row s2 hbr
  obtain ⟨hname, d, hemail⟩ := generateBaseFields_spec hgb
  constructor
  · rw [(hc i).1 hi, (hc j).2.1 hj, (hc k).2.2.1 hk, hname]
  · intro he
    refine ⟨d, ?_⟩
    rw [(hc e).2.2.2 he, (hc j).2.1 hj, (hc k).2.2.1 hk, hemail]

/-- Closed witness for C2 on a concrete row with all four identity fields
selected. -/
theorem C2_identity_cells_consistent_witness :
    (["Zion Jones", "Zion", "Jones", "zion.jones@example.com", "51"].getD 0 "" =
      ["Zion Jones", "Zion", "Jones", "zion.jones@example.com", "51"].getD 1 "" ++ " " ++
      ["Zion Jones", "Zion", "Jones", "zion.jones@example.com", "51"].getD 2 "") ∧
    ((stringsSplitComma "name,firstName,lastName,email,age").getD 3 "" = "email" →
      ∃ d, ["Zion Jones", "Zion", "Jones", "zion.jones@example.com", "51"].getD 3 "" =
        stringsToLower (["Zion Jones", "Zion", "Jones", "zion.jones@example.com", "51"].getD 1 "") ++
          "." ++
          stringsToLower (["Zion Jones", "Zion", "Jones", "zion.jones@example.com", "51"].getD 2 "") ++
          "@" ++ d) :=
  C2_identity_cells_consistent 1 "name,firstName,lastName,email,age" "o.csv" ⟨none, none⟩
    (fun _ => none) (fakeSeed 1)
    [["name", "firstName", "lastName", "email", "age"],
     ["Zion Jones", "Zion", "Jones", "zion.jones@example.com", "51"]]
    ⟨1147902781⟩ ["Zion Jones", "Zion", "Jones", "zion.jones@example.com", "51"]
    (by decide) (by decide) 0 1 2 3 (by decide) (by decide) (by decide)

/-- Claim C7: in every generated data row, each cell in an `age` column is
the decimal string of an integer drawn in the inclusive range
`[18, 99]`; the draw comes from the provider stream, not from the row's
base-field bundle. -/
theorem C7_age_cell_in_range (rows : Int) (fields filename : String)
    (fh : FileHandler) (fw : FileWriter) (s : FakeState)
    (records : List (List String)) (s' : FakeState) (row : List String)
    (h : generateCsvData rows fields "output" filename fh fw s = .ok records s')
    (hrow : row ∈ records.tail) (i : Nat)
    (hi : (stringsSplitComma fields).getD i "" = "age") :
    ∃ n : Nat, 18 ≤ n ∧ n ≤ 99 ∧ row.getD i "" = toString n := by
  obtain ⟨rs, hrec, hlen, hmem⟩ := generateCsvData_ok_structure h
  subst hrec
  obtain ⟨s0, bf, s1, s2, hgb, hbr⟩ := hmem row (by simpa using hrow)
  exact buildRow_age_cells _ bf s1 row s2 hbr i hi

/-- Closed witness for C7 on a concrete row whose second cell is an age. -/
theorem C7_age_cell_in_range_witness :
    ∃ n : Nat, 18 ≤ n ∧ n ≤ 99 ∧ ["Zion Jones", "51"].getD 1 "" = toString n :=
  C7_age_cell_in_range 1 "name,age" "output.csv" ⟨none, none⟩ (fun _ => none) (fakeSeed 1)
    [["name", "age"], ["Zion Jones", "51"]] ⟨1147902781⟩ ["Zion Jones", "51"]
    (by decide) (by decide) 1 (by decide)

/-- Claim C10: whenever the field-list validator accepts (returns the
empty list), every registry lookup made during row assembly finds a
generator function, assembling a row never fails, and a run never reaches
the `nil`-function panic. -/
theorem C10_validator_gates_registry (fields : String)
    (hv : validateSelectedFields fields = []) :
    (∀ f ∈ stringsSplitComma fields, (generators f).isSome) ∧
    (∀ bf s, (buildRow (stringsSplitComma fields) bf s).isSome) ∧
    (∀ (rows : Int) (filename : String) (fh : FileHandler) (fw : FileWriter) (s : FakeState),
      generateCsvData rows fields "output" filename fh fw s ≠ .panicked) := by
  have hall : ∀ f ∈ stringsSplitComma fields, (generators f).isSome := fun f hf =>
    validFields_generators_isSome (collectInvalid_nil_valid _ hv f hf)
  have hrowOk := buildRow_isSome _ hall
  refine ⟨hall, hrowOk, ?_⟩
  intro rows filename fh fw s h
  unfold generateCsvData at h
  cases h1 : fh.mkDirAllResult with
  | some e => rw [h1] at h; simp at h
  | none =>
    rw [h1] at h
    cases h2 : fh.createResult with
    | some e => rw [h2] at h; simp at h
    | none =>
      rw [h2] at h
      cases h3 : fw 0 with
      | some e => rw [h3] at h; simp at h
      | none =>
        rw [h3] at h
        exact writeRows_ne_panicked _ fw hrowOk _ _ _ _ h

/-- Closed witness for C10 at the field list `name,age`. -/
theorem C10_validator_gates_registry_witness :
    (generators "age").isSome ∧
    (buildRow (stringsSplitComma "name,age") ⟨"a b", "a", "b", "e"⟩ (fakeSeed 2)).isSome ∧
    generateCsvData 1 "name,age" "output" "o.csv" ⟨none, none⟩ (fun _ => none) (fakeSeed 2) ≠
      .panicked :=
  ⟨(C10_validator_gates_registry "name,age" (by decide)).1 "age" (by decide),
   (C10_validator_gates_registry "name,age" (by decide)).2.1 ⟨"a b", "a", "b", "e"⟩ (fakeSeed 2),
   (C10_validator_gates_registry "name,age" (by decide)).2.2 1 "o.csv" ⟨none, none⟩
     (fun _ => none) (fakeSeed 2)⟩

end CsvGen
